import Mathlib

/-!
Verification of the configuration-resolution core of the vscode-motoko
extension.  The two source variants (`src/extension.ts`, the lean variant
using a `dfx` lookup, and the extended variant with IDL staging and vessel
package discovery) are shallowly embedded.  Filesystem reads, the external
`which` lookup, the `vessel sources` subprocess, and the interactive
prompts are modelled as fields of an environment record; JavaScript
exceptions are modelled with `Except`, and an exception that the source
does not catch propagates as `.error`.
-/

namespace VSCodeMotoko

/-- Result of `fs.readFileSync` + `JSON.parse` on a manifest file: the file
can be absent, unreadable, present but malformed JSON, or parsed into a
typed value.  The first three all throw in the source and are caught. -/
inductive FileRead (α : Type) where
  | missing
  | unreadable
  | malformed
  | parsed (val : α)
deriving DecidableEq

/-- One canister entry of `dfx.json`: `{ main: string }`. -/
structure CanTarget where
  main : String
deriving DecidableEq

/-- Parsed `dfx.json`: `{ canisters: { name: { main } } }`.  Object keys are
kept in insertion order, as `Object.keys` on parsed JSON yields them. -/
structure DfxConfig where
  canisters : List (String × CanTarget)
deriving DecidableEq

/-- One entry of `canisters/canister_manifest.json`. -/
structure ManifestInfo where
  candid_path : String
  canister_id : String
deriving DecidableEq

/-- Parsed `canisters/canister_manifest.json`. -/
structure CanisterManifest where
  canisters : List (String × ManifestInfo)
deriving DecidableEq

/-- The resolved launch command: `{ command, args }`. -/
structure LaunchSpec where
  command : String
  args : List String
deriving DecidableEq

/-- An uncaught JavaScript exception escaping `start`:
`copyErr` is `fs.copyFileSync` failing inside `copyIDLFiles`;
`typeErr` is the `TypeError` from `dfxConfig.canisters[canister].main`
when `canister` is not a key of the manifest. -/
inductive JsError where
  | copyErr
  | typeErr
deriving DecidableEq

/-- `path.join a b` for the segment shapes used here (no trailing or
duplicated separators in the inputs). -/
def pathJoin (a b : String) : String := a ++ "/" ++ b

/-- Environment of the extended variant: workspace state, filesystem
outcomes, user configuration and prompt answers for one invocation. -/
structure Env where
  /-- `workspace.workspaceFolders[0].uri.fsPath`, absent when no folder. -/
  wsf : Option String
  /-- outcome of reading and parsing `dfx.json`. -/
  dfxJson : FileRead DfxConfig
  /-- outcome of reading and parsing `canisters/canister_manifest.json`. -/
  manifestJson : FileRead CanisterManifest
  /-- `fs.existsSync` on `<ws>/.vscode/idl`. -/
  idlPathExists : Bool
  /-- whether `fs.mkdirSync` on the idl path succeeds. -/
  mkdirOk : Bool
  /-- whether `fs.copyFileSync` from a given candid source path succeeds. -/
  copyOk : String → Bool
  /-- `config.get("canister")`, the configured default target name. -/
  canisterConfig : String
  /-- `config.standaloneBinary`. -/
  standaloneBinary : String
  /-- `config.standaloneArguments`. -/
  standaloneArguments : String
  /-- the answer of `window.showQuickPick`; `none` means dismissed. -/
  quickPick : Option String
  /-- the answer of `window.showInputBox`; `none` means dismissed. -/
  inputBox : Option String
  /-- `fs.existsSync` on `<ws>/vessel.json`. -/
  vesselJsonExists : Bool
  /-- stdout of `execSync "vessel sources"`; `none` means the command threw
  (not installed or nonzero exit). -/
  vesselSources : Option String

/-- `isDfxProject`: read and parse `dfx.json`, every failure collapsed to
`null` by the surrounding try/catch. -/
def isDfxProject (env : Env) : Option DfxConfig :=
  match env.wsf with
  | some _ =>
    match env.dfxJson with
    | .parsed cfg => some cfg
    | _ => none
  | none => none

/-- `getDfxManifest`: read and parse `canisters/canister_manifest.json`,
every failure collapsed to `null` by the surrounding try/catch. -/
def getDfxManifest (env : Env) : Option CanisterManifest :=
  match env.wsf with
  | some _ =>
    match env.manifestJson with
    | .parsed m => some m
    | _ => none
  | none => none

/-- `getOrCreateIDLPath`: return `<ws>/.vscode/idl`, creating it when
absent; any throw (no workspace, mkdir failure) is caught and gives
`null`. -/
def getOrCreateIDLPath (env : Env) : Option String :=
  match env.wsf with
  | none => none
  | some ws =>
    let idlPath := pathJoin (pathJoin ws ".vscode") "idl"
    if env.idlPathExists then some idlPath
    else if env.mkdirOk then some idlPath
    else none

/-- `info.canister_id.slice(3)`: the identifier with its first three
characters dropped (intended to strip a leading `ic:`). -/
def strippedId (s : String) : String := s.drop 3

/-- The `for` loop of `copyIDLFiles`: per entry, push the
`{alias, id}` mapping and copy the candid file to
`<idlPath>/<id-minus-3-chars>.did`.  The source has no try/catch here, so
a failing copy throws out of the loop (`.error .copyErr`); the returned
pair is (list of performed copies as source/destination paths, list of
alias/identifier mappings). -/
def copyEntries (env : Env) (idlPath : String) :
    List (String × ManifestInfo) →
      Except JsError (List (String × String) × List (String × String))
  | [] => .ok ([], [])
  | (a, info) :: rest =>
    let dest := pathJoin idlPath (strippedId info.canister_id ++ ".did")
    if env.copyOk info.candid_path then
      match copyEntries env idlPath rest with
      | .ok (cs, ms) => .ok ((info.candid_path, dest) :: cs, (a, info.canister_id) :: ms)
      | .error e => .error e
    else .error .copyErr

/-- Result of a successful `copyIDLFiles`: the scratch directory, the
copies performed, and the alias/identifier mappings. -/
structure CopyResult where
  idlPath : String
  copies : List (String × String)
  canisterMappings : List (String × String)
deriving DecidableEq

/-- `copyIDLFiles`: `null` when the scratch directory or the interface
manifest is unavailable; otherwise stage every entry.  A copy failure is
NOT caught and escapes as `.error`. -/
def copyIDLFiles (env : Env) : Except JsError (Option CopyResult) :=
  match getOrCreateIDLPath env with
  | none => .ok none
  | some idlPath =>
    match getDfxManifest env with
    | none => .ok none
    | some m =>
      match copyEntries env idlPath m.canisters with
      | .ok (cs, ms) => .ok (some ⟨idlPath, cs, ms⟩)
      | .error e => .error e

/-- The `idlArgs` accumulated in `start`: empty when `copyIDLFiles`
returned `null`, else `--actor-idl <dir>` followed by one
`--actor-alias <alias> <id>` triple per mapping. -/
def idlArgsOf : Option CopyResult → List String
  | none => []
  | some r =>
    "--actor-idl" :: r.idlPath ::
      r.canisterMappings.foldr (fun m acc => "--actor-alias" :: m.1 :: m.2 :: acc) []

/-- `start` closure of the extended `launchDfxProject`: stage IDL files,
then build `--canister-main <main>` plus the idl arguments.  A staging
exception propagates; a `canister` that is not a key of the manifest makes
`dfxConfig.canisters[canister].main` throw a `TypeError`. -/
def start (env : Env) (dfxConfig : DfxConfig) (canister : String) :
    Except JsError LaunchSpec :=
  match copyIDLFiles env with
  | .error e => .error e
  | .ok idlFiles =>
    match dfxConfig.canisters.lookup canister with
    | none => .error .typeErr
    | some t =>
      .ok ⟨env.standaloneBinary, ["--canister-main", t.main] ++ idlArgsOf idlFiles⟩

/-- Outcome of target resolution: the launch result (`.ok none` = no
launch, `.ok (some spec)` = launched with `spec`, `.error` = uncaught
exception) and how many times `showQuickPick` was invoked. -/
structure LaunchOut where
  result : Except JsError (Option LaunchSpec)
  quickPicks : Nat

/-- Extended `launchDfxProject`: prefer the configured default target name
when non-empty; else the sole target when exactly one exists; else show
the quick pick once and start only when a choice was made. -/
def launchDfxProject (env : Env) (dfxConfig : DfxConfig) : LaunchOut :=
  let canister := env.canisterConfig
  let canisters := dfxConfig.canisters.map Prod.fst
  if canister ≠ "" then ⟨(start env dfxConfig canister).map some, 0⟩
  else if canisters.length = 1 then
    ⟨(start env dfxConfig (canisters.headD "")).map some, 0⟩
  else
    match env.quickPick with
    | some c => ⟨(start env dfxConfig c).map some, 1⟩
    | none => ⟨.ok none, 1⟩

/-- JavaScript `String.prototype.split(" ")` over the character list:
each single space ends a token, adjacent spaces produce empty tokens, and
the empty string yields `[""]`. -/
def splitCharsOnSpace : List Char → List String
  | [] => [""]
  | c :: rest =>
    if c = ' ' then "" :: splitCharsOnSpace rest
    else
      match splitCharsOnSpace rest with
      | s :: ss => String.mk (c :: s.data) :: ss
      | [] => [String.mk [c]]

/-- `config.standaloneArguments.split(" ")` / `flags.split(" ")`: the
naive single-space split with no quoting support. -/
def splitArguments (s : String) : List String := splitCharsOnSpace s.data

/-- `vesselArgs`: empty unless `vessel.json` exists and
`execSync "vessel sources"` succeeds, in which case its stdout is split on
spaces.  Every throw (no workspace folder, command missing, nonzero exit)
is caught and yields `[]`. -/
def vesselArgs (env : Env) : List String :=
  match env.wsf with
  | none => []
  | some _ =>
    if env.vesselJsonExists then
      match env.vesselSources with
      | none => []
      | some flags => splitArguments flags
    else []

/-- The manifest-absent path of `startServer`: prompt for an entry point
(dismissal or the empty string launches nothing), then build
`--canister-main <entry>` ++ vessel arguments ++ extra arguments. -/
def standaloneFlow (env : Env) : Option LaunchSpec :=
  match env.inputBox with
  | none => none
  | some entryPoint =>
    if entryPoint = "" then none
    else
      some ⟨env.standaloneBinary,
        ["--canister-main", entryPoint] ++ vesselArgs env ++
          splitArguments env.standaloneArguments⟩

/-- Extended `startServer`: detect the project; on success resolve through
`launchDfxProject`, otherwise take the standalone path. -/
def startServer (env : Env) : LaunchOut :=
  match isDfxProject env with
  | some cfg => launchDfxProject env cfg
  | none => ⟨.ok (standaloneFlow env), 0⟩

/-- Environment of the lean variant (`src/extension.ts`). -/
structure EnvL where
  /-- `config.get("dfx")`, the configured dfx path. -/
  dfxSetting : String
  /-- result of `which.sync dfx`; `none` means the lookup threw. -/
  whichResult : Option String
  /-- `fs.existsSync dfx`. -/
  dfxExists : Bool
  /-- `config.get("canister")`. -/
  canisterConfig : String
  /-- the answer of `window.showQuickPick`; `none` means dismissed. -/
  quickPick : Option String

/-- Outcome of `getDfx`: the resolved path or a thrown error, and whether
`window.showErrorMessage` was invoked. -/
structure GetDfxOut where
  result : Except Unit String
  errorShown : Bool

/-- `getDfx`: `which.sync` result when the lookup succeeds; on lookup
failure, the configured path when it exists as a file, else a user-visible
error message followed by a thrown `Error`. -/
def getDfx (env : EnvL) : GetDfxOut :=
  match env.whichResult with
  | some p => ⟨.ok p, false⟩
  | none =>
    if env.dfxExists then ⟨.ok env.dfxSetting, false⟩
    else ⟨.error (), true⟩

/-- `start` closure of the lean `launchDfxProject`: resolve dfx (whose
uncaught throw aborts the launch) and build
`[_language-service, canister]`; the Bool records whether the error
notification was shown. -/
def startL (env : EnvL) (canister : String) : Except Unit LaunchSpec × Bool :=
  let g := getDfx env
  match g.result with
  | .error e => (.error e, g.errorShown)
  | .ok dfx => (.ok ⟨dfx, ["_language-service", canister]⟩, g.errorShown)

instance {ε α : Type} [DecidableEq ε] [DecidableEq α] : DecidableEq (Except ε α) := fun x y =>
  match x, y with
  | .ok a, .ok b =>
    if h : a = b then .isTrue (by rw [h]) else .isFalse (fun he => h (Except.ok.inj he))
  | .error a, .error b =>
    if h : a = b then .isTrue (by rw [h]) else .isFalse (fun he => h (Except.error.inj he))
  | .ok _, .error _ => .isFalse (fun he => Except.noConfusion he)
  | .error _, .ok _ => .isFalse (fun he => Except.noConfusion he)

/-- The staged copies `copyIDLFiles` performs for a list of manifest
entries: each candid file goes to
`<idlPath>/<identifier minus its first three characters>.did`. -/
def stagedCopies (idlPath : String) (entries : List (String × ManifestInfo)) :
    List (String × String) :=
  entries.map fun p => (p.2.candid_path, pathJoin idlPath (strippedId p.2.canister_id ++ ".did"))

/-- The alias/identifier mappings `copyIDLFiles` accumulates: the FULL
identifier, not the stripped one. -/
def argMappings (entries : List (String × ManifestInfo)) : List (String × String) :=
  entries.map fun p => (p.1, p.2.canister_id)

/-- A baseline environment: one workspace folder, no manifests, scratch
directory present, copies succeed, empty configuration, prompts
dismissed. -/
def baseEnv : Env where
  wsf := some "/w"
  dfxJson := .missing
  manifestJson := .missing
  idlPathExists := true
  mkdirOk := true
  copyOk := fun _ => true
  canisterConfig := ""
  standaloneBinary := "mo-ide"
  standaloneArguments := ""
  quickPick := none
  inputBox := none
  vesselJsonExists := false
  vesselSources := none

/-- A one-target `dfx.json`. -/
def cfgC1 : DfxConfig := ⟨[("a", ⟨"src/main.mo"⟩)]⟩

/-- Interface manifest present, configured target `a`, but the artifact
copy fails (missing candid file). -/
def envC1cex : Env :=
  { baseEnv with
    manifestJson := .parsed ⟨[("a", ⟨"/w/canisters/a/a.did", "ic:abc"⟩)]⟩
    copyOk := fun _ => false
    canisterConfig := "a" }

/-- Configured target `a`, interface manifest missing (soft staging
failure). -/
def envC1w : Env := { baseEnv with canisterConfig := "a" }

/-- No project manifest; entry point entered at the prompt; `vessel.json`
present but `vessel sources` throws (command not installed). -/
def envC2w : Env :=
  { baseEnv with
    inputBox := some "/tmp/foo.mo"
    standaloneArguments := "--a --b"
    vesselJsonExists := true
    vesselSources := none }

/-- `dfx.json` present but malformed JSON. -/
def envC3w : Env := { baseEnv with dfxJson := .malformed }

/-- A two-target `dfx.json`. -/
def cfgC4 : DfxConfig := ⟨[("a", ⟨"src/a.mo"⟩), ("b", ⟨"src/b.mo"⟩)]⟩

/-- No configured default target, quick pick dismissed. -/
def envC4w : Env := baseEnv

/-- A single-target `dfx.json`. -/
def cfgC5 : DfxConfig := ⟨[("main", ⟨"src/main.mo"⟩)]⟩

/-- No configured default target, no interface manifest. -/
def envC5w : Env := baseEnv

/-- A three-target `dfx.json`. -/
def cfgC6 : DfxConfig := ⟨[("a", ⟨"src/a.mo"⟩), ("b", ⟨"src/b.mo"⟩), ("c", ⟨"src/c.mo"⟩)]⟩

/-- Configured default target `b`. -/
def envC6w : Env := { baseEnv with canisterConfig := "b" }

/-- Lean-variant environment: `which` lookup fails and the configured path
is not a file. -/
def envC7w : EnvL := ⟨"dfx", none, false, "", none⟩

/-- A one-target `dfx.json` without target `ghost`. -/
def cfgC9 : DfxConfig := ⟨[("a", ⟨"src/a.mo"⟩)]⟩

/-- Configured default target `ghost`, absent from the manifest; no
interface manifest. -/
def envC9w : Env := { baseEnv with canisterConfig := "ghost" }

/-- Interface manifest whose single entry has the empty identifier. -/
def envC10cex : Env :=
  { baseEnv with manifestJson := .parsed ⟨[("a", ⟨"/w/canisters/a/a.did", ""⟩)]⟩ }

/-- A one-entry interface-manifest entry list with an `ic:`-prefixed
identifier. -/
def entriesC10 : List (String × ManifestInfo) := [("a", ⟨"/w/canisters/a/a.did", "ic:abc"⟩)]

/-- Dropping the first three characters of a non-empty string never gives
the string back. -/
theorem strippedId_ne (s : String) (h : s ≠ "") : strippedId s ≠ s := by
  intro he
  apply h
  have hd : s.1.drop 3 = s.1 := by
    have h2 := congrArg String.data he
    simpa [strippedId, String.drop_eq] using h2
  have hl := congrArg List.length hd
  rw [List.length_drop] at hl
  have h0 : s.1.length = 0 := by omega
  have hnil : s.1 = [] := List.length_eq_zero.mp h0
  cases s with
  | mk data =>
    simp only at hnil
    rw [hnil]

/-- A successful `copyEntries` run stages exactly the stripped-identifier
filenames and records exactly the full-identifier mappings. -/
theorem copyEntries_ok_spec (env : Env) (idlPath : String) :
    ∀ (entries : List (String × ManifestInfo)) (cs ms : List (String × String)),
      copyEntries env idlPath entries = .ok (cs, ms) →
      cs = stagedCopies idlPath entries ∧ ms = argMappings entries := by
  intro entries
  induction entries with
  | nil =>
    intro cs ms h
    simp only [copyEntries, Except.ok.injEq, Prod.mk.injEq] at h
    simp [stagedCopies, argMappings, ← h.1, ← h.2]
  | cons p rest ih =>
    intro cs ms h
    obtain ⟨a, info⟩ := p
    simp only [copyEntries] at h
    cases hcc : env.copyOk info.candid_path with
    | false => simp [hcc] at h
    | true =>
      simp only [hcc, if_true] at h
      cases hr : copyEntries env idlPath rest with
      | error e => rw [hr] at h; simp at h
      | ok pr =>
        obtain ⟨cs', ms'⟩ := pr
        rw [hr] at h
        simp only [Except.ok.injEq, Prod.mk.injEq] at h
        obtain ⟨ha, hb⟩ := ih cs' ms' hr
        simp [stagedCopies, argMappings, ← h.1, ← h.2, ha, hb]

/-- C1 (counterexample): with the interface manifest present and the
single artifact copy failing, the exception escapes `copyIDLFiles` and the
launch aborts; the claim's predicted degraded launch (no staging
arguments) does not happen. -/
theorem copy_failure_aborts_launch :
    launchDfxProject envC1cex cfgC1 = ⟨.error .copyErr, 0⟩ ∧
    (launchDfxProject envC1cex cfgC1).result ≠
      .ok (some ⟨envC1cex.standaloneBinary, ["--canister-main", "src/main.mo"]⟩) :=
  ⟨rfl, by decide⟩

/-- C1 (amended): a scratch-directory failure or a missing interface
manifest degrades to no staging arguments and the launch proceeds, but an
artifact-copy failure propagates as an exception and aborts the launch. -/
theorem staging_soft_failures_degrade (env : Env) (cfg : DfxConfig) (t : CanTarget)
    (hsel : env.canisterConfig ≠ "")
    (hfind : cfg.canisters.lookup env.canisterConfig = some t) :
    ((getOrCreateIDLPath env = none ∨ getDfxManifest env = none) →
      launchDfxProject env cfg =
        ⟨.ok (some ⟨env.standaloneBinary, ["--canister-main", t.main]⟩), 0⟩) ∧
    (∀ e, copyIDLFiles env = .error e → launchDfxProject env cfg = ⟨.error e, 0⟩) := by
  constructor
  · intro hsoft
    have hc : copyIDLFiles env = .ok none := by
      unfold copyIDLFiles
      rcases hsoft with h | h
      · rw [h]
      · cases hp : getOrCreateIDLPath env with
        | none => rfl
        | some p => rw [h]
    unfold launchDfxProject
    simp [hsel, start, hc, hfind, idlArgsOf, Except.map]
  · intro e he
    unfold launchDfxProject
    simp [hsel, start, he, Except.map]

/-- C1 (witness): concrete soft failure — manifest missing — still
launches with the bare arguments. -/
theorem staging_soft_failures_degrade_witness :
    launchDfxProject envC1w cfgC1 =
      ⟨.ok (some ⟨envC1w.standaloneBinary, ["--canister-main", "src/main.mo"]⟩), 0⟩ :=
  (staging_soft_failures_degrade envC1w cfgC1 ⟨"src/main.mo"⟩ (by decide) rfl).1 (Or.inr rfl)

/-- C2: any package-source discovery failure (missing `vessel.json` or a
throwing `vessel sources`) yields no vessel arguments, and the standalone
launch still happens with the remaining arguments intact. -/
theorem vessel_failure_keeps_launch (env : Env) (ep : String)
    (hno : isDfxProject env = none)
    (hin : env.inputBox = some ep) (hep : ep ≠ "")
    (hfail : env.vesselJsonExists = false ∨ env.vesselSources = none) :
    vesselArgs env = [] ∧
    startServer env = ⟨.ok (some ⟨env.standaloneBinary,
      ["--canister-main", ep] ++ splitArguments env.standaloneArguments⟩), 0⟩ := by
  have hv : vesselArgs env = [] := by
    cases hw : env.wsf with
    | none => simp [vesselArgs, hw]
    | some ws =>
      rcases hfail with h | h
      · simp [vesselArgs, hw, h]
      · cases hj : env.vesselJsonExists <;> simp [vesselArgs, hw, h, hj]
  refine ⟨hv, ?_⟩
  unfold startServer
  rw [hno]
  unfold standaloneFlow
  rw [hin]
  simp [hep, hv]

/-- C2 (witness): `vessel.json` present but the listing command throws;
the launch proceeds with the entry point and the extra arguments. -/
theorem vessel_failure_keeps_launch_witness :
    vesselArgs envC2w = [] ∧
    startServer envC2w = ⟨.ok (some ⟨envC2w.standaloneBinary,
      ["--canister-main", "/tmp/foo.mo"] ++ splitArguments envC2w.standaloneArguments⟩), 0⟩ :=
  vessel_failure_keeps_launch envC2w "/tmp/foo.mo" rfl rfl (by decide) (Or.inr rfl)

/-- C3: missing, unreadable and malformed `dfx.json` all collapse to the
same `null` detector result, and `startServer` then takes the standalone
path with an exception-free outcome. -/
theorem detector_failures_collapse (env : Env)
    (h : env.dfxJson = .missing ∨ env.dfxJson = .unreadable ∨ env.dfxJson = .malformed) :
    isDfxProject env = none ∧ startServer env = ⟨.ok (standaloneFlow env), 0⟩ := by
  have hd : isDfxProject env = none := by
    unfold isDfxProject
    cases hw : env.wsf with
    | none => rfl
    | some ws => rcases h with h | h | h <;> rw [h]
  refine ⟨hd, ?_⟩
  unfold startServer
  rw [hd]

/-- C3 (witness): a present but malformed `dfx.json`. -/
theorem detector_failures_collapse_witness :
    isDfxProject envC3w = none ∧ startServer envC3w = ⟨.ok (standaloneFlow envC3w), 0⟩ :=
  detector_failures_collapse envC3w (Or.inr (Or.inr rfl))

/-- C4: with more than one target and an empty configured default, the
quick pick is shown exactly once, and dismissing it launches nothing. -/
theorem multi_target_prompts_once (env : Env) (cfg : DfxConfig)
    (hc : env.canisterConfig = "") (hn : 1 < cfg.canisters.length) :
    (launchDfxProject env cfg).quickPicks = 1 ∧
    (env.quickPick = none → launchDfxProject env cfg = ⟨.ok none, 1⟩) := by
  have hlen : ¬ cfg.canisters.length = 1 := by omega
  constructor
  · unfold launchDfxProject
    simp only [hc]
    cases hq : env.quickPick <;> simp [hlen, hq]
  · intro hq
    unfold launchDfxProject
    simp [hc, hlen, hq]

/-- C4 (witness): two targets, no default, quick pick dismissed. -/
theorem multi_target_prompts_once_witness :
    (launchDfxProject envC4w cfgC4).quickPicks = 1 ∧
    launchDfxProject envC4w cfgC4 = ⟨.ok none, 1⟩ :=
  ⟨(multi_target_prompts_once envC4w cfgC4 rfl (by decide)).1,
   (multi_target_prompts_once envC4w cfgC4 rfl (by decide)).2 rfl⟩

/-- C5: a single-target manifest with an empty configured default selects
the sole target without any quick pick and produces its LaunchSpec. -/
theorem single_target_no_prompt (env : Env) (cfg : DfxConfig) (name : String)
    (t : CanTarget) (io : Option CopyResult)
    (hc : env.canisterConfig = "") (hone : cfg.canisters = [(name, t)])
    (hcopy : copyIDLFiles env = .ok io) :
    launchDfxProject env cfg =
      ⟨.ok (some ⟨env.standaloneBinary, ["--canister-main", t.main] ++ idlArgsOf io⟩), 0⟩ := by
  unfold launchDfxProject
  simp [hc, hone, start, hcopy, List.lookup, Except.map]

/-- C5 (witness): one target `main`, empty default, no interface
manifest. -/
theorem single_target_no_prompt_witness :
    launchDfxProject envC5w cfgC5 =
      ⟨.ok (some ⟨envC5w.standaloneBinary,
        ["--canister-main", "src/main.mo"] ++ idlArgsOf none⟩), 0⟩ :=
  single_target_no_prompt envC5w cfgC5 "main" ⟨"src/main.mo"⟩ none rfl rfl rfl

/-- C6: a non-empty configured default matching a manifest target is
selected without any quick pick, whatever the number of targets. -/
theorem configured_target_no_prompt (env : Env) (cfg : DfxConfig)
    (t : CanTarget) (io : Option CopyResult)
    (hc : env.canisterConfig ≠ "")
    (hfind : cfg.canisters.lookup env.canisterConfig = some t)
    (hcopy : copyIDLFiles env = .ok io) :
    launchDfxProject env cfg =
      ⟨.ok (some ⟨env.standaloneBinary, ["--canister-main", t.main] ++ idlArgsOf io⟩), 0⟩ := by
  unfold launchDfxProject
  simp [hc, start, hcopy, hfind, Except.map]

/-- C6 (witness): default `b` among three targets. -/
theorem configured_target_no_prompt_witness :
    launchDfxProject envC6w cfgC6 =
      ⟨.ok (some ⟨envC6w.standaloneBinary,
        ["--canister-main", "src/b.mo"] ++ idlArgsOf none⟩), 0⟩ :=
  configured_target_no_prompt envC6w cfgC6 ⟨"src/b.mo"⟩ none (by decide) rfl rfl

/-- C7: when the `which` lookup fails, a missing configured path shows the
error notification and aborts every start, while an existing configured
path is used directly. -/
theorem getDfx_lookup_failure (env : EnvL) (hw : env.whichResult = none) :
    (env.dfxExists = false →
      getDfx env = ⟨.error (), true⟩ ∧
      ∀ c, startL env c = (.error (), true)) ∧
    (env.dfxExists = true →
      getDfx env = ⟨.ok env.dfxSetting, false⟩ ∧
      ∀ c, startL env c = (.ok ⟨env.dfxSetting, ["_language-service", c]⟩, false)) := by
  cases he : env.dfxExists <;> simp [getDfx, startL, hw, he]

/-- C7 (witness): lookup fails and the configured path is not a file. -/
theorem getDfx_lookup_failure_witness :
    getDfx envC7w = ⟨.error (), true⟩ ∧ startL envC7w "main" = (.error (), true) :=
  ⟨((getDfx_lookup_failure envC7w rfl).1 rfl).1,
   ((getDfx_lookup_failure envC7w rfl).1 rfl).2 "main"⟩

/-- C8: the extra-arguments split maps "--a --b" to exactly
["--a", "--b"], and splits naively on single spaces, so quoted spaces are
not turned into shell-style tokens. -/
theorem splitArguments_naive :
    splitArguments "--a --b" = ["--a", "--b"] ∧
    splitArguments "--x \"a b\"" = ["--x", "\"a", "b\""] ∧
    splitArguments "--x \"a b\"" ≠ ["--x", "\"a b\""] := by decide

/-- C9: a non-empty configured default absent from the manifest is
dereferenced without a membership check: no prompt is shown and argument
assembly throws a TypeError. -/
theorem missing_configured_target_type_error (env : Env) (cfg : DfxConfig)
    (io : Option CopyResult)
    (hc : env.canisterConfig ≠ "")
    (hmiss : cfg.canisters.lookup env.canisterConfig = none)
    (hcopy : copyIDLFiles env = .ok io) :
    launchDfxProject env cfg = ⟨.error .typeErr, 0⟩ := by
  unfold launchDfxProject
  simp [hc, start, hcopy, hmiss, Except.map]

/-- C9 (witness): default `ghost` absent from a one-target manifest. -/
theorem missing_configured_target_type_error_witness :
    launchDfxProject envC9w cfgC9 = ⟨.error .typeErr, 0⟩ :=
  missing_configured_target_type_error envC9w cfgC9 none (by decide) rfl rfl

/-- C10 (counterexample): for an entry whose identifier is the empty
string, the staged filename identifier (first three characters dropped)
EQUALS the full identifier recorded in the argument mappings, so "never
equals" fails. -/
theorem empty_id_staged_name_eq :
    copyIDLFiles envC10cex = .ok (some ⟨"/w/.vscode/idl",
      [("/w/canisters/a/a.did", pathJoin "/w/.vscode/idl" (strippedId "" ++ ".did"))],
      [("a", "")]⟩) ∧
    strippedId "" = "" :=
  ⟨rfl, rfl⟩

/-- C10 (amended): successful staging names each staged file by the
identifier with its first three characters dropped plus ".did" while the
argument mappings carry the full identifier, and for every entry with a
NON-EMPTY identifier the two identifiers differ (they coincide exactly
when the identifier is empty). -/
theorem staged_names_vs_arg_ids (env : Env) (idlPath : String)
    (entries : List (String × ManifestInfo)) (cs ms : List (String × String))
    (hok : copyEntries env idlPath entries = .ok (cs, ms)) :
    cs = stagedCopies idlPath entries ∧
    ms = argMappings entries ∧
    ∀ p ∈ entries, p.2.canister_id ≠ "" →
      strippedId p.2.canister_id ≠ p.2.canister_id := by
  obtain ⟨h1, h2⟩ := copyEntries_ok_spec env idlPath entries cs ms hok
  exact ⟨h1, h2, fun p _ hne => strippedId_ne p.2.canister_id hne⟩

/-- C10 (witness): one entry with identifier "ic:abc": staged as
"abc.did", passed as "ic:abc", and the two identifiers differ. -/
theorem staged_names_vs_arg_ids_witness :
    [("/w/canisters/a/a.did", pathJoin "/w/.vscode/idl" (strippedId "ic:abc" ++ ".did"))] =
      stagedCopies "/w/.vscode/idl" entriesC10 ∧
    [("a", "ic:abc")] = argMappings entriesC10 ∧
    strippedId "ic:abc" ≠ "ic:abc" := by
  have h := staged_names_vs_arg_ids baseEnv "/w/.vscode/idl" entriesC10
    [("/w/canisters/a/a.did", pathJoin "/w/.vscode/idl" (strippedId "ic:abc" ++ ".did"))]
    [("a", "ic:abc")] (by decide)
  exact ⟨h.1, h.2.1, h.2.2 ("a", ⟨"/w/canisters/a/a.did", "ic:abc"⟩) (by decide) (by decide)⟩

end VSCodeMotoko
